import Mathlib

/-!
Formal model of the persistent fuzzing harness ("REPRL" loop) and its coverage
instrumentation bridge from `src/lua-5.4.4/src/lua.c` (repository fuzzilli-lua).

Modelling conventions:
* machine integers are `Nat` (the C code never relies on 32-bit wraparound in
  the modelled fragment; where it masks, the mask is explicit, e.g. `&&& 0xff`);
* `read`/`write` return values are `Int`, since they are `ssize_t` in C;
* the external guard table `__edges_start .. __edges_stop` is a function from
  cell position to cell value together with a cell count (`stop - start`);
* the byte array `__shmem->edges` is a function from byte index to byte value;
* the Lua C API (state creation, `luaL_loadbuffer`, `lua_pcall`, ...) is an
  external library; its per-iteration outcome is threaded through the loop body
  as an explicit record, and the loop body itself is translated faithfully.
-/

/-- SHM_SIZE from lua.c: size in bytes of the coverage region (0x100000). -/
def SHM_SIZE : Nat := 0x100000

/-- MAX_EDGES from lua.c: `(SHM_SIZE - 4) * 8`. -/
def MAX_EDGES : Nat := (SHM_SIZE - 4) * 8

/-- Lua status code LUA_OK. -/
def LUA_OK : Nat := 0

/-- Lua status code LUA_ERRRUN. -/
def LUA_ERRRUN : Nat := 2

/-- Lua status code LUA_ERRSYNTAX. -/
def LUA_ERRSYNTAX : Nat := 3

/-- Lua status code LUA_ERRMEM. -/
def LUA_ERRMEM : Nat := 4

/-- Lua status code LUA_ERRERR. -/
def LUA_ERRERR : Nat := 5

/-- State touched by the coverage bitmap bridge: the external guard table
(`__edges_start .. __edges_stop`: `count` guard cells, modelled as a function
from cell position to value) and the byte array `__shmem->edges` of the shared
coverage region. -/
structure CovState where
  guards : Nat → Nat
  count : Nat
  edges : Nat → Nat

/-- Loop of `__sanitizer_cov_reset_edgeguards`:
`for (uint32_t *x = __edges_start; x < __edges_stop && N < MAX_EDGES; x++) *x = ++N;`.
Here `i` is the position of `x` in the guard table, `N` the running counter and
`remaining` the number of cells from `x` up to `__edges_stop` (so the test
`x < __edges_stop` is `remaining > 0`). -/
def resetLoop (g : Nat → Nat) (i N remaining : Nat) : Nat → Nat :=
  match remaining with
  | 0 => g
  | r + 1 =>
    if N < MAX_EDGES then
      resetLoop (fun x => if x = i then N + 1 else g x) (i + 1) (N + 1) r
    else g

/-- Model of `__sanitizer_cov_reset_edgeguards()`. -/
def reset_edgeguards (st : CovState) : CovState :=
  { st with guards := resetLoop st.guards 0 0 st.count }

/-- Model of `__sanitizer_cov_trace_pc_guard(uint32_t *guard)`; `g` is the
position of the guard cell `guard` points into.  Reads `index = *guard`,
returns immediately when the index is zero, otherwise ORs bit `index % 8` into
byte `index / 8` of `__shmem->edges` and zeroes the guard. -/
def trace_pc_guard (st : CovState) (g : Nat) : CovState :=
  let index := st.guards g
  if index = 0 then st
  else
    { st with
      edges := fun j => if j = index / 8 then st.edges j ||| 1 <<< (index % 8) else st.edges j,
      guards := fun p => if p = g then 0 else st.guards p }

/-- Bit `b` of the coverage bit array: bit `b % 8` of byte `edges[b / 8]`. -/
def regionBit (st : CovState) (b : Nat) : Bool :=
  (st.edges (b / 8)).testBit (b % 8)

/-- Byte offset, from the start of the `struct shmem_data` region, of the byte
`edges[index / 8]` written by `__sanitizer_cov_trace_pc_guard`: the struct
starts with the 4-byte `num_edges` header, the flexible `edges` array follows. -/
def edgeByteOffset (index : Nat) : Nat := 4 + index / 8

/-- Guard table in which every cell is 0 (the load-time state of sanitizer
guard sections before the runtime initializes them), with exactly `MAX_EDGES`
cells, next to an all-zero coverage byte array. -/
def fullGuardTable : CovState :=
  { guards := fun _ => 0, count := MAX_EDGES, edges := fun _ => 0 }

/-- Coverage state whose guard cell 0 holds index `MAX_EDGES` (the last index
`reset_edgeguards` hands out when the table has at least `MAX_EDGES` cells). -/
def oobState : CovState :=
  { guards := fun p => if p = 0 then MAX_EDGES else 0, count := MAX_EDGES, edges := fun _ => 0 }

/-- Outcome of one `read(2)` call on the data descriptor: the return value
`rv` (`ssize_t`; zero or negative on EOF / error) and the bytes the call
stored into the buffer when `rv > 0`. -/
structure ReadEv where
  rv : Int
  bytes : List Nat
deriving DecidableEq

/-- Result of the receive loop in `do_Fuzzing`. -/
inductive RecvResult
  | ok (buf : List Nat)
  | fatal
  | blocked
deriving DecidableEq

/-- The loop
`while (remaining > 0) { rv = read(REPRL_DRFD, ptr, remaining); if (rv <= 0) _exit(-1); remaining -= rv; ptr += rv; }`
over the (finite) list of read outcomes the supervisor's pipe will produce.
`acc` is the byte prefix already stored at `script_src`.  `blocked` models the
run in which `remaining > 0` but no further read outcome exists: the blocking
`read` never returns and the loop makes no further step. -/
def recvLoop : Nat → List Nat → List ReadEv → RecvResult
  | 0, acc, _ => RecvResult.ok acc
  | _ + 1, _, [] => RecvResult.blocked
  | remaining + 1, acc, ev :: rest =>
    if ev.rv ≤ 0 then RecvResult.fatal
    else recvLoop (remaining + 1 - ev.rv.toNat) (acc ++ ev.bytes) rest

/-- A read trace is well formed for a given initial byte count when every
successful read obeys the `read(2)` contract: it returns at most the count it
was asked for (the `remaining` of that moment) and stores exactly `rv` bytes. -/
def validTrace : Nat → List ReadEv → Bool
  | _, [] => true
  | remaining, ev :: rest =>
    if ev.rv ≤ 0 then true
    else if ev.rv.toNat ≤ remaining ∧ ev.bytes.length = ev.rv.toNat then
      validTrace (remaining - ev.rv.toNat) rest
    else false

/-- Number of `read` calls the receive loop performs on the data descriptor. -/
def recvReadCount : Nat → List ReadEv → Nat
  | 0, _ => 0
  | _ + 1, [] => 0
  | remaining + 1, ev :: rest =>
    if ev.rv ≤ 0 then 1
    else 1 + recvReadCount (remaining + 1 - ev.rv.toNat) rest

/-- Result of receiving one script payload. -/
inductive ScriptRecv
  | ok (buffer : List Nat)
  | fatal
  | blocked
deriving DecidableEq

/-- Payload reception of `do_Fuzzing`: `malloc(script_size + 1)` +
`memset(script_src, 0, script_size + 1)`, the receive loop, then
`script_src[script_size] = 0`.  On success the returned buffer is the full
`script_size + 1`-byte allocation: the received bytes followed by the final
null terminator. -/
def receive_script (script_size : Nat) (evs : List ReadEv) : ScriptRecv :=
  match recvLoop script_size [] evs with
  | RecvResult.ok bytes => ScriptRecv.ok (bytes ++ [0])
  | RecvResult.fatal => ScriptRecv.fatal
  | RecvResult.blocked => ScriptRecv.blocked

/-- The 4 greeting bytes "HELO". -/
def HELO : List Nat := [72, 69, 76, 79]

/-- Inputs of the handshake at the top of `do_Fuzzing`: the return value of
`write(REPRL_CWFD, helo, 4)`, the return value of `read(REPRL_CRFD, helo, 4)`,
and the 4 bytes that read stored into `helo` when it returned 4. -/
structure HandshakeEnv where
  writeRv : Int
  readRv : Int
  readBytes : List Nat
deriving DecidableEq

/-- How the handshake code leaves the process: `proceed` enters the fuzz
loop, `leaveWithFailure` is `return EXIT_FAILURE` (propagated out of `main`,
so the process exits), `fatalExit` is `_exit(-1)`. -/
inductive HsResult
  | proceed
  | leaveWithFailure
  | fatalExit
deriving DecidableEq

/-- The handshake of `do_Fuzzing`: write the fixed 4-byte greeting, read 4
bytes back into the same buffer, fail on a short read/write, then fail on a
`memcmp` mismatch against "HELO"; otherwise fall through into the loop. -/
def perform_handshake (env : HandshakeEnv) : HsResult :=
  if env.writeRv ≠ 4 ∨ env.readRv ≠ 4 then HsResult.leaveWithFailure
  else if env.readBytes ≠ HELO then HsResult.fatalExit
  else HsResult.proceed

/-- True exactly for the results in which the handshake code terminates the
whole process rather than entering the fuzz loop. -/
def processTerminatesHs : HsResult → Bool
  | HsResult.proceed => false
  | HsResult.leaveWithFailure => true
  | HsResult.fatalExit => true

/-- Outcome of the external Lua C API calls made for one payload:
`luaL_loadbuffer` (compile the chunk), `docall`/`lua_pcall` (run it), and the
error object rendered as a string by `lua_tostring` when one of them failed. -/
structure ExecOutcome where
  loadStatus : Nat
  callStatus : Nat
  errMsg : String
deriving DecidableEq

/-- Status returned by `dostring` = `dochunk(L, luaL_loadbuffer(...))`:
`dochunk` runs `docall` only when loading succeeded and hands the final status
to `report`, which returns it unchanged. -/
def dostringResult (o : ExecOutcome) : Nat :=
  if o.loadStatus = LUA_OK then o.callStatus else o.loadStatus

/-- Lines written to stderr by `report` (called from inside `dochunk`): on a
non-OK status it prints the error object string through `l_message`; on
`LUA_OK` it prints nothing. -/
def dostringStderr (o : ExecOutcome) : List String :=
  if dostringResult o = LUA_OK then [] else [o.errMsg]

/-- Observable steps of one pass through the `while(1)` body of `do_Fuzzing`,
in program order.  `luaReportStatusZero` is the `report(L, status)` call in
the failure branch of the loop body: at that point the local `status` still
holds 0, so this call prints nothing - the diagnostic for a failed payload
was already written to stderr inside `dostring` (see `dostringStderr`). -/
inductive Ev
  | readAction
  | readLength
  | readData
  | luaCreate
  | luaRunChunk
  | luaPrintResults
  | luaReportStatusZero
  | luaCloseState
  | flushStdoutStderr
  | writeStatusWord
  | covResetGuards
deriving DecidableEq

/-- Result of one pass through the body of the `while(1)` fuzz loop:
`nextIteration` (the body ran to its end and the loop repeats: step trace,
4-byte status word written to `REPRL_CWFD`, stderr lines), `fatalExit`
(`_exit(-1)` by `CHECK`, the unknown-action branch or the receive loop),
`leaveLoop` (`return EXIT_FAILURE`), `blocked` (a blocking read never
returned). -/
inductive IterResult
  | nextIteration (trace : List Ev) (statusWord : Nat) (stderrLines : List String)
  | fatalExit (trace : List Ev)
  | leaveLoop (trace : List Ev)
  | blocked (trace : List Ev)
deriving DecidableEq

/-- The multi-character constant `'cexe'` as GCC evaluates it:
`('c' << 24) | ('e' << 16) | ('x' << 8) | 'e'`. -/
def cexe : Nat := 0x63657865

/-- Per-iteration inputs of the loop body: return values of the `read`s on the
control descriptor, the 4-byte action value and 8-byte length read, the data
descriptor's read outcomes, whether `luaL_newstate` returned non-NULL, whether
`handle_luainit` returned `LUA_OK`, the Lua execution outcome for the payload,
and the return value of the final status `write`. -/
structure IterEnv where
  actionRv : Int
  action : Nat
  sizeRv : Int
  scriptSize : Nat
  dataEvs : List ReadEv
  stateOk : Bool
  luainitOk : Bool
  exec : ExecOutcome
  statusWriteRv : Int
deriving DecidableEq

/-- One pass through the body of the `while(1)` loop of `do_Fuzzing`:
read the action word (`CHECK(== 4)`), accept only `'cexe'`, read the length
(`CHECK(== 8)`), receive the payload, create and configure a fresh Lua state,
run `handle_luainit`, run the payload with `dostring` (printing results on
success, calling `report(L, status)` with the still-zero local `status` on
failure), `lua_close` the state unconditionally, compute
`status = (result & 0xff) << 8`, flush stdout and stderr,
`CHECK(write(REPRL_CWFD, &status, 4) == 4)`, and reset the edge guards. -/
def fuzzIteration (env : IterEnv) : IterResult :=
  if env.actionRv ≠ 4 then IterResult.fatalExit [Ev.readAction]
  else if env.action ≠ cexe then IterResult.fatalExit [Ev.readAction]
  else if env.sizeRv ≠ 8 then IterResult.fatalExit [Ev.readAction, Ev.readLength]
  else
    match receive_script env.scriptSize env.dataEvs with
    | ScriptRecv.fatal => IterResult.fatalExit [Ev.readAction, Ev.readLength, Ev.readData]
    | ScriptRecv.blocked => IterResult.blocked [Ev.readAction, Ev.readLength, Ev.readData]
    | ScriptRecv.ok _buffer =>
      if env.stateOk = false then
        IterResult.leaveLoop [Ev.readAction, Ev.readLength, Ev.readData]
      else if env.luainitOk = false then
        IterResult.leaveLoop [Ev.readAction, Ev.readLength, Ev.readData, Ev.luaCreate]
      else
        let result := dostringResult env.exec
        let printOrReport :=
          if result = LUA_OK then Ev.luaPrintResults else Ev.luaReportStatusZero
        let status := (result &&& 0xff) <<< 8
        if env.statusWriteRv ≠ 4 then
          IterResult.fatalExit
            [Ev.readAction, Ev.readLength, Ev.readData, Ev.luaCreate, Ev.luaRunChunk,
              printOrReport, Ev.luaCloseState, Ev.flushStdoutStderr, Ev.writeStatusWord]
        else
          IterResult.nextIteration
            [Ev.readAction, Ev.readLength, Ev.readData, Ev.luaCreate, Ev.luaRunChunk,
              printOrReport, Ev.luaCloseState, Ev.flushStdoutStderr, Ev.writeStatusWord,
              Ev.covResetGuards]
            status (dostringStderr env.exec)

/-- The step performed between `dostring` and `lua_close`: `l_print` on
success, the status-zero `report` call on failure. -/
def branchEvOf (env : IterEnv) : Ev :=
  if dostringResult env.exec = LUA_OK then Ev.luaPrintResults else Ev.luaReportStatusZero

/-- The 4-byte status word of an iteration: `(result & 0xff) << 8`. -/
def statusWordOf (env : IterEnv) : Nat := (dostringResult env.exec &&& 0xff) <<< 8

/-- The step trace of a full (non-fatal) iteration. -/
def iterTrace (env : IterEnv) : List Ev :=
  [Ev.readAction, Ev.readLength, Ev.readData, Ev.luaCreate, Ev.luaRunChunk,
    branchEvOf env, Ev.luaCloseState, Ev.flushStdoutStderr, Ev.writeStatusWord,
    Ev.covResetGuards]

/-- The iteration gets past every fatal gate before the execute step: the
action read returned 4 bytes with the `'cexe'` tag, the length read returned
8 bytes, the payload was fully received, `luaL_newstate` succeeded and
`handle_luainit` returned `LUA_OK`. -/
def reachesExec (env : IterEnv) : Prop :=
  env.actionRv = 4 ∧ env.action = cexe ∧ env.sizeRv = 8 ∧
  (∃ b, receive_script env.scriptSize env.dataEvs = ScriptRecv.ok b) ∧
  env.stateOk = true ∧ env.luainitOk = true

/-- The status codes `dostring` can return for a payload that failed:
a runtime error, a syntax error, an out-of-memory error or an error while
handling an error. -/
def isLuaError (r : Nat) : Prop :=
  r = LUA_ERRRUN ∨ r = LUA_ERRSYNTAX ∨ r = LUA_ERRMEM ∨ r = LUA_ERRERR

/-- Modelled from the spec: the outcome of the external Lua runtime (the Lua
core of lua-5.4.4 is not part of this file's source) on the empty chunk.  Per
the spec a payload that completes without error yields the OK status, and the
empty chunk compiles and completes without error, so both the load and the
call succeed and no error message is produced. -/
def emptyChunkOutcome : ExecOutcome := { loadStatus := LUA_OK, callStatus := LUA_OK, errMsg := "" }

/-- Inputs of `__sanitizer_cov_trace_pc_guard_init(start, stop)`: the number
of guard cells `stop - start`, their values (`guards 0` is `*start`), whether
`__edges_start`/`__edges_stop` were already set by an earlier registration,
whether the `SHM_ID` environment variable is present, and whether `shm_open`
and `mmap` succeed. -/
structure InitEnv where
  count : Nat
  guards : Nat → Nat
  alreadyRegistered : Bool
  shmKeyPresent : Bool
  shmOpenOk : Bool
  mmapOk : Bool

/-- Result of coverage initialization: an early duplicate-initialization
return, one of the three fatal `_exit(-1)` paths, or completion -
`done heapFallback numEdges guards` records whether the region is a private
`malloc` buffer instead of shared memory, the edge count written to the
region header (`__shmem->num_edges = stop - start`), and the guard table after
the initial `__sanitizer_cov_reset_edgeguards()` call. -/
inductive InitResult
  | skipped
  | fatalSingleModule
  | fatalShmOpen
  | fatalMmap
  | done (heapFallback : Bool) (numEdges : Nat) (guards : Nat → Nat)

/-- Model of `__sanitizer_cov_trace_pc_guard_init`: return early when the
range is degenerate (`start == stop`) or already initialized (`*start`
nonzero); abort when a second module registers; resolve `SHM_ID`, falling
back to a private `malloc(SHM_SIZE)` buffer when it is absent, aborting when
`shm_open` or `mmap` fails; then reset the edge guards and write
`stop - start` into the region header. -/
def trace_pc_guard_init (env : InitEnv) : InitResult :=
  if env.count = 0 ∨ env.guards 0 ≠ 0 then InitResult.skipped
  else if env.alreadyRegistered = true then InitResult.fatalSingleModule
  else if env.shmKeyPresent = false then
    InitResult.done true env.count (resetLoop env.guards 0 0 env.count)
  else if env.shmOpenOk = false then InitResult.fatalShmOpen
  else if env.mmapOk = false then InitResult.fatalMmap
  else InitResult.done false env.count (resetLoop env.guards 0 0 env.count)

/-- The `num_edges` header value recorded by a completed initialization. -/
def initHeaderNumEdges : InitResult → Option Nat
  | InitResult.done _ n _ => some n
  | _ => none

/-- True exactly for the fatal (`_exit(-1)`) initialization results. -/
def initFatal : InitResult → Bool
  | InitResult.fatalSingleModule => true
  | InitResult.fatalShmOpen => true
  | InitResult.fatalMmap => true
  | _ => false

/-- Concrete inputs used by the witnesses below. -/
def covW2 : CovState := { guards := fun _ => 0, count := 3, edges := fun _ => 0 }

/-- Concrete guard table with 5 cells, all zero. -/
def covW4 : CovState := { guards := fun _ => 0, count := 5, edges := fun _ => 0 }

/-- Concrete read trace delivering 3 bytes in two partial reads. -/
def evsW3 : List ReadEv := [{ rv := 2, bytes := [10, 20] }, { rv := 1, bytes := [30] }]

/-- Concrete handshake inputs in which everything succeeds. -/
def hsW5 : HandshakeEnv := { writeRv := 4, readRv := 4, readBytes := HELO }

/-- Concrete iteration inputs: 2-byte payload, execution succeeds. -/
def envW6 : IterEnv :=
  { actionRv := 4, action := cexe, sizeRv := 8, scriptSize := 2,
    dataEvs := [{ rv := 2, bytes := [97, 98] }], stateOk := true, luainitOk := true,
    exec := { loadStatus := 0, callStatus := 0, errMsg := "" }, statusWriteRv := 4 }

/-- Concrete iteration inputs: payload loads but fails at run time with
`LUA_ERRRUN`. -/
def envErrRun : IterEnv :=
  { actionRv := 4, action := cexe, sizeRv := 8, scriptSize := 2,
    dataEvs := [{ rv := 2, bytes := [97, 98] }], stateOk := true, luainitOk := true,
    exec := { loadStatus := 0, callStatus := 2, errMsg := "chunk: boom" }, statusWriteRv := 4 }

/-- Concrete iteration inputs: payload fails to compile with `LUA_ERRSYNTAX`. -/
def envSyntaxError : IterEnv :=
  { actionRv := 4, action := cexe, sizeRv := 8, scriptSize := 0, dataEvs := [],
    stateOk := true, luainitOk := true,
    exec := { loadStatus := 3, callStatus := 0, errMsg := "chunk: unexpected symbol" },
    statusWriteRv := 4 }

/-- Concrete iteration inputs with a declared payload length of 0. -/
def envW10 : IterEnv :=
  { actionRv := 4, action := cexe, sizeRv := 8, scriptSize := 0,
    dataEvs := [{ rv := 1, bytes := [99] }], stateOk := true, luainitOk := true,
    exec := emptyChunkOutcome, statusWriteRv := 4 }

/-- Concrete initialization inputs: 7 fresh guards, no `SHM_ID` in the
environment. -/
def initW8 : InitEnv :=
  { count := 7, guards := fun _ => 0, alreadyRegistered := false,
    shmKeyPresent := false, shmOpenOk := false, mmapOk := false }

theorem resetLoop_eq (r : Nat) : ∀ (i : Nat) (g : Nat → Nat) (x : Nat),
    resetLoop g i i r x = if i ≤ x ∧ x < i + r ∧ x < MAX_EDGES then x + 1 else g x := by
  induction r with
  | zero =>
    intro i g x
    rw [resetLoop, if_neg (show ¬(i ≤ x ∧ x < i + 0 ∧ x < MAX_EDGES) by omega)]
  | succ n ih =>
    intro i g x
    rw [resetLoop]
    by_cases hi : i < MAX_EDGES
    · rw [if_pos hi, ih (i + 1) (fun y => if y = i then i + 1 else g y) x]
      by_cases hc : i + 1 ≤ x ∧ x < i + 1 + n ∧ x < MAX_EDGES
      · rw [if_pos hc, if_pos (show i ≤ x ∧ x < i + (n + 1) ∧ x < MAX_EDGES by omega)]
      · simp only [if_neg hc]
        by_cases hx : x = i
        · subst hx
          simp only [if_pos rfl]
          rw [if_pos (show x ≤ x ∧ x < x + (n + 1) ∧ x < MAX_EDGES by omega)]
          simp
        · simp only [if_neg hx]
          rw [if_neg (show ¬(i ≤ x ∧ x < i + (n + 1) ∧ x < MAX_EDGES) by omega)]
    · rw [if_neg hi, if_neg (show ¬(i ≤ x ∧ x < i + (n + 1) ∧ x < MAX_EDGES) by omega)]

theorem reset_guards_apply (st : CovState) (x : Nat) :
    (reset_edgeguards st).guards x =
      if x < st.count ∧ x < MAX_EDGES then x + 1 else st.guards x := by
  show resetLoop st.guards 0 0 st.count x = _
  rw [resetLoop_eq st.count 0 st.guards x]
  by_cases h : x < st.count ∧ x < MAX_EDGES
  · rw [if_pos (show 0 ≤ x ∧ x < 0 + st.count ∧ x < MAX_EDGES by omega), if_pos h]
  · rw [if_neg (show ¬(0 ≤ x ∧ x < 0 + st.count ∧ x < MAX_EDGES) by omega), if_neg h]

theorem reset_count (st : CovState) : (reset_edgeguards st).count = st.count := rfl

theorem trace_noop_of_zero (st : CovState) (g : Nat) (hz : st.guards g = 0) :
    trace_pc_guard st g = st := by
  unfold trace_pc_guard
  simp [hz]

theorem trace_guards_zero_or_same (st : CovState) (p x : Nat) :
    (trace_pc_guard st p).guards x = 0 ∨ (trace_pc_guard st p).guards x = st.guards x := by
  unfold trace_pc_guard
  by_cases h : st.guards p = 0
  · simp [h]
  · simp only [if_neg h]
    by_cases hx : x = p
    · simp [hx]
    · simp [hx]

theorem guards_zero_stable (st : CovState) (g : Nat) (hz : st.guards g = 0) :
    ∀ hs : List Nat, (hs.foldl trace_pc_guard st).guards g = 0 := by
  intro hs
  induction hs generalizing st with
  | nil => exact hz
  | cons p rest ih =>
    simp only [List.foldl_cons]
    apply ih
    rcases trace_guards_zero_or_same st p g with h | h
    · exact h
    · rw [h]; exact hz

theorem trace_hit (st : CovState) (g : Nat) (hg : st.guards g ≠ 0) :
    regionBit (trace_pc_guard st g) (st.guards g) = true ∧
    (∀ b, b ≠ st.guards g → regionBit (trace_pc_guard st g) b = regionBit st b) ∧
    (trace_pc_guard st g).guards g = 0 ∧
    (∀ p, p ≠ g → (trace_pc_guard st g).guards p = st.guards p) := by
  refine ⟨?_, ?_, ?_, ?_⟩
  · simp only [trace_pc_guard, regionBit, if_neg hg, if_pos rfl, if_true]
    rw [Nat.testBit_or, Nat.one_shiftLeft, Nat.testBit_two_pow_self]
    simp
  · intro b hb
    simp only [trace_pc_guard, regionBit, if_neg hg]
    by_cases hj : b / 8 = st.guards g / 8
    · rw [if_pos hj]
      have hm : st.guards g % 8 ≠ b % 8 := by
        intro h
        apply hb
        have h1 := Nat.div_add_mod b 8
        have h2 := Nat.div_add_mod (st.guards g) 8
        omega
      rw [Nat.testBit_or, Nat.one_shiftLeft, Nat.testBit_two_pow_of_ne hm]
      simp
    · rw [if_neg hj]
  · simp [trace_pc_guard, if_neg hg]
  · intro p hp
    simp [trace_pc_guard, if_neg hg, hp]

/-- C2: after a call to `reset_edgeguards`, the first `trace_pc_guard` hit on
any guard holding a nonzero index sets the bit for that index in the shared
coverage region, changes no other bit, and zeroes that guard (leaving every
other guard unchanged); afterwards - with arbitrary hits on other guards in
between - any further hit on the same guard before the next reset leaves both
the coverage region and the guard unchanged. -/
theorem edge_hit_once_per_reset (st0 : CovState) (g : Nat)
    (hg : (reset_edgeguards st0).guards g ≠ 0) :
    regionBit (trace_pc_guard (reset_edgeguards st0) g)
        ((reset_edgeguards st0).guards g) = true ∧
    (∀ b, b ≠ (reset_edgeguards st0).guards g →
      regionBit (trace_pc_guard (reset_edgeguards st0) g) b =
        regionBit (reset_edgeguards st0) b) ∧
    (trace_pc_guard (reset_edgeguards st0) g).guards g = 0 ∧
    (∀ p, p ≠ g → (trace_pc_guard (reset_edgeguards st0) g).guards p =
      (reset_edgeguards st0).guards p) ∧
    (∀ hs : List Nat,
      trace_pc_guard (hs.foldl trace_pc_guard (trace_pc_guard (reset_edgeguards st0) g)) g =
        hs.foldl trace_pc_guard (trace_pc_guard (reset_edgeguards st0) g)) := by
  obtain ⟨h1, h2, h3, h4⟩ := trace_hit (reset_edgeguards st0) g hg
  refine ⟨h1, h2, h3, h4, fun hs => ?_⟩
  exact trace_noop_of_zero _ g (guards_zero_stable _ g h3 hs)

theorem edge_hit_once_per_reset_witness :
    regionBit (trace_pc_guard (reset_edgeguards covW2) 1) ((reset_edgeguards covW2).guards 1) = true ∧
    (trace_pc_guard (reset_edgeguards covW2) 1).guards 1 = 0 :=
  ⟨(edge_hit_once_per_reset covW2 1 (by decide)).1,
   (edge_hit_once_per_reset covW2 1 (by decide)).2.2.1⟩

/-- C4: `reset_edgeguards` is idempotent - running it twice in a row yields
the same guard assignment as running it once - and that assignment gives the
first `min(count, MAX_EDGES)` guard cells the sequential indices `1, 2, ...`
in order, while cells at positions at or beyond `MAX_EDGES` (which the loop
never writes) stay at 0 whenever they were 0 before. -/
theorem reset_edgeguards_idempotent (st : CovState)
    (h0 : ∀ i, MAX_EDGES ≤ i → st.guards i = 0) :
    (reset_edgeguards (reset_edgeguards st)).guards = (reset_edgeguards st).guards ∧
    (∀ i, i < st.count → i < MAX_EDGES → (reset_edgeguards st).guards i = i + 1) ∧
    (∀ i, MAX_EDGES ≤ i → (reset_edgeguards st).guards i = 0) := by
  refine ⟨funext fun x => ?_, fun i h1 h2 => ?_, fun i h => ?_⟩
  · rw [reset_guards_apply (reset_edgeguards st) x, reset_count st, reset_guards_apply st x]
    by_cases h : x < st.count ∧ x < MAX_EDGES
    · rw [if_pos h, if_pos h]
    · rw [if_neg h, if_neg h]
  · rw [reset_guards_apply, if_pos ⟨h1, h2⟩]
  · rw [reset_guards_apply, if_neg (show ¬(i < st.count ∧ i < MAX_EDGES) by omega)]
    exact h0 i h

theorem reset_edgeguards_idempotent_witness :
    (reset_edgeguards (reset_edgeguards covW4)).guards = (reset_edgeguards covW4).guards ∧
    (reset_edgeguards covW4).guards 2 = 3 :=
  ⟨(reset_edgeguards_idempotent covW4 (fun _ _ => rfl)).1,
   (reset_edgeguards_idempotent covW4 (fun _ _ => rfl)).2.1 2 (by decide) (by decide)⟩

/-- C9 (refuting the claimed bound at its upper end): `reset_edgeguards` does
hand out the index `MAX_EDGES` itself (to the cell at position
`MAX_EDGES - 1`) when the guard table has `MAX_EDGES` cells, and for that
index the byte `trace_pc_guard` writes - byte `index / 8` of the `edges`
array, at region byte offset `4 + index / 8` - sits at offset exactly
`SHM_SIZE`, one byte past the `SHM_SIZE`-byte coverage region, not strictly
inside it; the final conjunct evaluates the write `trace_pc_guard` performs
for that index at edges-array byte `SHM_SIZE - 4`. -/
theorem guard_index_max_edges_escapes_region :
    (reset_edgeguards fullGuardTable).guards (MAX_EDGES - 1) = MAX_EDGES ∧
    edgeByteOffset MAX_EDGES = SHM_SIZE ∧
    ¬ edgeByteOffset MAX_EDGES < SHM_SIZE ∧
    (trace_pc_guard oobState 0).edges (SHM_SIZE - 4) = 1 := by
  refine ⟨?_, by decide, by decide, by decide⟩
  rw [reset_guards_apply]
  rw [if_pos (show MAX_EDGES - 1 < fullGuardTable.count ∧ MAX_EDGES - 1 < MAX_EDGES by
    constructor <;> decide)]
  decide

theorem recvLoop_ok_length (evs : List ReadEv) : ∀ (remaining : Nat) (acc out : List Nat),
    validTrace remaining evs = true →
    recvLoop remaining acc evs = RecvResult.ok out →
    out.length = acc.length + remaining := by
  induction evs with
  | nil =>
    intro remaining acc out _ h
    cases remaining with
    | zero =>
      simp only [recvLoop] at h
      cases h
      simp
    | succ n => simp [recvLoop] at h
  | cons ev rest ih =>
    intro remaining acc out hv h
    cases remaining with
    | zero =>
      simp only [recvLoop] at h
      cases h
      simp
    | succ n =>
      simp only [recvLoop] at h
      by_cases hrv : ev.rv ≤ 0
      · rw [if_pos hrv] at h
        cases h
      · rw [if_neg hrv] at h
        simp only [validTrace, if_neg hrv] at hv
        by_cases hc : ev.rv.toNat ≤ n + 1 ∧ ev.bytes.length = ev.rv.toNat
        · rw [if_pos hc] at hv
          have := ih (n + 1 - ev.rv.toNat) (acc ++ ev.bytes) out hv h
          rw [List.length_append] at this
          omega
        · rw [if_neg hc] at hv
          cases hv

/-- C3: for a declared payload length and a well-formed read trace, whenever
the receive loop completes, the accumulated partial reads amount to exactly
the declared length - the resulting buffer is the `script_size + 1`-byte
allocation whose byte at offset `script_size` is the null terminator - and
any single read returning zero or a negative value makes the loop fatal
immediately, whatever read outcomes would still have been available. -/
theorem receive_script_exact_length (script_size : Nat) (evs : List ReadEv)
    (hv : validTrace script_size evs = true) :
    (∀ buffer, receive_script script_size evs = ScriptRecv.ok buffer →
      buffer.length = script_size + 1 ∧ buffer[script_size]? = some 0) ∧
    (∀ (r : Nat) (acc : List Nat) (ev : ReadEv) (rest : List ReadEv), ev.rv ≤ 0 →
      recvLoop (r + 1) acc (ev :: rest) = RecvResult.fatal) := by
  constructor
  · intro buffer hb
    unfold receive_script at hb
    cases hrl : recvLoop script_size [] evs with
    | ok bytes =>
      rw [hrl] at hb
      cases hb
      have hlen := recvLoop_ok_length evs script_size [] bytes hv hrl
      simp only [List.length_nil, Nat.zero_add] at hlen
      constructor
      · simp [hlen]
      · rw [← hlen, List.getElem?_concat_length]
    | fatal => rw [hrl] at hb; cases hb
    | blocked => rw [hrl] at hb; cases hb
  · intro r acc ev rest hrv
    simp [recvLoop, if_pos hrv]

theorem receive_script_exact_length_witness :
    validTrace 3 evsW3 = true ∧
    ([10, 20, 30, 0] : List Nat).length = 3 + 1 ∧
    ([10, 20, 30, 0] : List Nat)[3]? = some 0 := by
  refine ⟨by decide, ?_⟩
  exact (receive_script_exact_length 3 evsW3 (by decide)).1 [10, 20, 30, 0] (by decide)

/-- C5: the handshake succeeds (falls through into the fuzz loop) exactly
when the greeting write wrote 4 bytes, the reply read returned 4 bytes and
the 4 bytes read match the "HELO" greeting that was sent; in every other case
the process terminates (either `return EXIT_FAILURE` out of `main` on a short
read/write, or `_exit(-1)` on a content mismatch). -/
theorem perform_handshake_iff (env : HandshakeEnv) :
    (perform_handshake env = HsResult.proceed ↔
      env.writeRv = 4 ∧ env.readRv = 4 ∧ env.readBytes = HELO) ∧
    (perform_handshake env = HsResult.proceed ∨
      processTerminatesHs (perform_handshake env) = true) := by
  unfold perform_handshake
  by_cases h1 : env.writeRv ≠ 4 ∨ env.readRv ≠ 4
  · rw [if_pos h1]
    constructor
    · constructor
      · intro h
        cases h
      · rintro ⟨hw, hr, -⟩
        rcases h1 with h | h
        · exact absurd hw h
        · exact absurd hr h
    · exact Or.inr rfl
  · rw [if_neg h1]
    push_neg at h1
    by_cases h2 : env.readBytes ≠ HELO
    · rw [if_pos h2]
      constructor
      · constructor
        · intro h
          cases h
        · rintro ⟨-, -, hb⟩
          exact absurd hb h2
      · exact Or.inr rfl
    · rw [if_neg h2]
      push_neg at h2
      constructor
      · constructor
        · intro _
          exact ⟨h1.1, h1.2, h2⟩
        · intro _
          rfl
      · exact Or.inl rfl

theorem perform_handshake_iff_witness : perform_handshake hsW5 = HsResult.proceed :=
  (perform_handshake_iff hsW5).1.mpr ⟨rfl, rfl, rfl⟩

/-- C8: for a non-degenerate (`count ≠ 0`), not yet initialized guard range
(first guard still 0, no earlier registration), when the `SHM_ID` environment
key is absent the coverage initialization still completes - it is not one of
the fatal paths - falling back to a private heap buffer, writes the edge
count `stop - start` into the region header, and leaves the guard table
reset to sequential indices. -/
theorem cov_setup_no_shm_heap_fallback (env : InitEnv)
    (hc : env.count ≠ 0) (hg : env.guards 0 = 0)
    (hr : env.alreadyRegistered = false) (hk : env.shmKeyPresent = false) :
    trace_pc_guard_init env =
      InitResult.done true env.count (resetLoop env.guards 0 0 env.count) ∧
    initHeaderNumEdges (trace_pc_guard_init env) = some env.count ∧
    initFatal (trace_pc_guard_init env) = false := by
  have hmain : trace_pc_guard_init env =
      InitResult.done true env.count (resetLoop env.guards 0 0 env.count) := by
    unfold trace_pc_guard_init
    rw [if_neg (show ¬(env.count = 0 ∨ env.guards 0 ≠ 0) by
      rintro (h | h)
      · exact hc h
      · exact h hg)]
    rw [if_neg (show ¬env.alreadyRegistered = true by rw [hr]; exact Bool.false_ne_true)]
    rw [if_pos hk]
  exact ⟨hmain, by rw [hmain]; rfl, by rw [hmain]; rfl⟩

theorem cov_setup_no_shm_heap_fallback_witness :
    trace_pc_guard_init initW8 =
      InitResult.done true initW8.count (resetLoop initW8.guards 0 0 initW8.count) ∧
    initHeaderNumEdges (trace_pc_guard_init initW8) = some initW8.count ∧
    initFatal (trace_pc_guard_init initW8) = false :=
  cov_setup_no_shm_heap_fallback initW8 (by decide) rfl rfl rfl

theorem recvLoop_zero (acc : List Nat) (evs : List ReadEv) :
    recvLoop 0 acc evs = RecvResult.ok acc := by
  cases evs <;> rfl

theorem recvReadCount_zero (evs : List ReadEv) : recvReadCount 0 evs = 0 := by
  cases evs <;> rfl

theorem fuzzIteration_normal (env : IterEnv) (h : reachesExec env)
    (hw : env.statusWriteRv = 4) :
    fuzzIteration env =
      IterResult.nextIteration (iterTrace env) (statusWordOf env) (dostringStderr env.exec) := by
  obtain ⟨h1, h2, h3, ⟨b, h4⟩, h5, h6⟩ := h
  unfold fuzzIteration
  rw [if_neg (show ¬env.actionRv ≠ 4 by simp [h1])]
  rw [if_neg (show ¬env.action ≠ cexe by simp [h2])]
  rw [if_neg (show ¬env.sizeRv ≠ 8 by simp [h3])]
  rw [h4]
  rw [if_neg (show ¬env.stateOk = false by simp [h5])]
  rw [if_neg (show ¬env.luainitOk = false by simp [h6])]
  rw [if_neg (show ¬env.statusWriteRv ≠ 4 by simp [hw])]
  rfl

theorem iterTrace_facts (env : IterEnv) :
    Ev.luaCloseState ∉ (iterTrace env).take 6 ∧
    (iterTrace env).drop 6 =
      [Ev.luaCloseState, Ev.flushStdoutStderr, Ev.writeStatusWord, Ev.covResetGuards] ∧
    (iterTrace env).count Ev.luaCreate = 1 ∧
    (iterTrace env).count Ev.luaCloseState = 1 := by
  unfold iterTrace branchEvOf
  by_cases hc : dostringResult env.exec = LUA_OK
  · rw [if_pos hc]
    decide
  · rw [if_neg hc]
    decide

/-- C6: in every iteration that reaches the execute step and completes, the
step trace destroys the Lua state unconditionally (exactly one `lua_close`,
matching the single state creation, placed after it and never in the first
six steps), then flushes stdout/stderr, only then writes the status word,
and resets the coverage edge guards last - so no interpreter state survives
into the next iteration. -/
theorem teardown_before_status_write (env : IterEnv) (h : reachesExec env)
    (hw : env.statusWriteRv = 4) :
    fuzzIteration env =
      IterResult.nextIteration (iterTrace env) (statusWordOf env) (dostringStderr env.exec) ∧
    Ev.luaCloseState ∉ (iterTrace env).take 6 ∧
    (iterTrace env).drop 6 =
      [Ev.luaCloseState, Ev.flushStdoutStderr, Ev.writeStatusWord, Ev.covResetGuards] ∧
    (iterTrace env).count Ev.luaCreate = 1 ∧
    (iterTrace env).count Ev.luaCloseState = 1 :=
  ⟨fuzzIteration_normal env h hw, iterTrace_facts env⟩

theorem teardown_before_status_write_witness :
    fuzzIteration envW6 =
      IterResult.nextIteration (iterTrace envW6) (statusWordOf envW6) (dostringStderr envW6.exec) ∧
    (iterTrace envW6).count Ev.luaCloseState = 1 :=
  ⟨(teardown_before_status_write envW6 ⟨rfl, rfl, rfl, ⟨[97, 98, 0], rfl⟩, rfl, rfl⟩ rfl).1,
   (teardown_before_status_write envW6 ⟨rfl, rfl, rfl, ⟨[97, 98, 0], rfl⟩, rfl, rfl⟩ rfl).2.2.2.2⟩

/-- C1 (amended): for every iteration that reaches the execute step and
completes, the 4-byte status word written over the control-write descriptor
is `(result & 0xff) << 8`: its SECOND byte (bits 8-15) carries the execution
status - 0 when the payload completed without error, nonzero when it raised
an error - while the low byte of the word is always 0. -/
theorem status_word_second_byte (env : IterEnv) (h : reachesExec env)
    (hw : env.statusWriteRv = 4) :
    fuzzIteration env =
      IterResult.nextIteration (iterTrace env) (statusWordOf env) (dostringStderr env.exec) ∧
    statusWordOf env % 256 = 0 ∧
    statusWordOf env / 256 % 256 = dostringResult env.exec &&& 0xff ∧
    (dostringResult env.exec = LUA_OK → statusWordOf env = 0) ∧
    (isLuaError (dostringResult env.exec) → statusWordOf env / 256 % 256 ≠ 0) := by
  have h256 : (2 : Nat) ^ 8 = 256 := by norm_num
  refine ⟨fuzzIteration_normal env h hw, ?_, ?_, ?_, ?_⟩
  · show ((dostringResult env.exec &&& 0xff) <<< 8) % 256 = 0
    rw [Nat.shiftLeft_eq, h256]
    exact Nat.mul_mod_left _ _
  · show ((dostringResult env.exec &&& 0xff) <<< 8) / 256 % 256 = dostringResult env.exec &&& 0xff
    rw [Nat.shiftLeft_eq, h256]
    rw [Nat.mul_div_cancel _ (by norm_num : (0 : Nat) < 256)]
    exact Nat.mod_eq_of_lt (Nat.lt_of_le_of_lt Nat.and_le_right (by norm_num))
  · intro hok
    show ((dostringResult env.exec &&& 0xff) <<< 8) = 0
    rw [hok]
    decide
  · intro he
    show ((dostringResult env.exec &&& 0xff) <<< 8) / 256 % 256 ≠ 0
    rcases he with hr | hr | hr | hr <;> rw [hr] <;> decide

theorem status_word_second_byte_witness :
    statusWordOf envErrRun % 256 = 0 ∧ statusWordOf envErrRun / 256 % 256 ≠ 0 :=
  ⟨(status_word_second_byte envErrRun ⟨rfl, rfl, rfl, ⟨[97, 98, 0], rfl⟩, rfl, rfl⟩ rfl).2.1,
   (status_word_second_byte envErrRun ⟨rfl, rfl, rfl, ⟨[97, 98, 0], rfl⟩, rfl, rfl⟩ rfl).2.2.2.2
     (Or.inl (by decide))⟩

/-- C1 counterexample: a concrete iteration whose payload raises a syntax
error still writes the status word 768 = 0x300, whose LOW byte is 0 - not
nonzero as the claim states (the error status 3 sits in the second byte). -/
theorem status_word_low_byte_zero_on_error :
    dostringResult envSyntaxError.exec ≠ LUA_OK ∧
    fuzzIteration envSyntaxError =
      IterResult.nextIteration
        [Ev.readAction, Ev.readLength, Ev.readData, Ev.luaCreate, Ev.luaRunChunk,
          Ev.luaReportStatusZero, Ev.luaCloseState, Ev.flushStdoutStderr, Ev.writeStatusWord,
          Ev.covResetGuards]
        768 ["chunk: unexpected symbol"] ∧
    768 % 256 = 0 :=
  ⟨by decide, by decide, by decide⟩

/-- C7: for every iteration whose payload execution fails with one of Lua's
error statuses, the error object string is written to the error stream, the
failure is folded into the (nonzero) status word, and the loop body completes
normally - the process stays in the loop and accepts the next request.  (The
diagnostic is emitted by `report` inside `dostring`; the `report(L, status)`
call in the loop body itself runs with the still-zero `status` and prints
nothing, which is the `luaReportStatusZero` step.) -/
theorem payload_error_recoverable (env : IterEnv) (h : reachesExec env)
    (hw : env.statusWriteRv = 4) (he : isLuaError (dostringResult env.exec)) :
    fuzzIteration env =
      IterResult.nextIteration (iterTrace env) (statusWordOf env) [env.exec.errMsg] ∧
    statusWordOf env ≠ 0 ∧
    branchEvOf env = Ev.luaReportStatusZero := by
  have hne : dostringResult env.exec ≠ LUA_OK := by
    rcases he with hr | hr | hr | hr <;> rw [hr] <;> decide
  have hstderr : dostringStderr env.exec = [env.exec.errMsg] := by
    unfold dostringStderr
    rw [if_neg hne]
  refine ⟨?_, ?_, ?_⟩
  · rw [fuzzIteration_normal env h hw, hstderr]
  · show ((dostringResult env.exec &&& 0xff) <<< 8) ≠ 0
    rcases he with hr | hr | hr | hr <;> rw [hr] <;> decide
  · unfold branchEvOf
    rw [if_neg hne]

theorem payload_error_recoverable_witness :
    fuzzIteration envErrRun =
      IterResult.nextIteration (iterTrace envErrRun) (statusWordOf envErrRun) ["chunk: boom"] ∧
    statusWordOf envErrRun ≠ 0 :=
  ⟨(payload_error_recoverable envErrRun ⟨rfl, rfl, rfl, ⟨[97, 98, 0], rfl⟩, rfl, rfl⟩ rfl
      (Or.inl (by decide))).1,
   (payload_error_recoverable envErrRun ⟨rfl, rfl, rfl, ⟨[97, 98, 0], rfl⟩, rfl, rfl⟩ rfl
      (Or.inl (by decide))).2.1⟩

/-- C10: with a declared payload length of 0 the receive loop performs no
reads on the data descriptor (whatever read outcomes are available), the
payload buffer is the 1-byte allocation holding only the null terminator,
and the iteration - with the spec-modelled empty-chunk execution outcome -
completes with the success status word 0, no stderr output, and returns to
the top of the loop ready for the next request. -/
theorem zero_length_iteration (env : IterEnv)
    (h0 : env.scriptSize = 0) (h1 : env.actionRv = 4) (h2 : env.action = cexe)
    (h3 : env.sizeRv = 8) (h4 : env.stateOk = true) (h5 : env.luainitOk = true)
    (h6 : env.exec = emptyChunkOutcome) (hw : env.statusWriteRv = 4) :
    recvReadCount env.scriptSize env.dataEvs = 0 ∧
    receive_script env.scriptSize env.dataEvs = ScriptRecv.ok [0] ∧
    fuzzIteration env = IterResult.nextIteration (iterTrace env) 0 [] := by
  have hrecv : receive_script env.scriptSize env.dataEvs = ScriptRecv.ok [0] := by
    rw [h0]
    unfold receive_script
    rw [recvLoop_zero]
    rfl
  refine ⟨by rw [h0, recvReadCount_zero], hrecv, ?_⟩
  have hmain := fuzzIteration_normal env ⟨h1, h2, h3, ⟨[0], hrecv⟩, h4, h5⟩ hw
  rw [hmain]
  rw [show statusWordOf env = 0 by show (dostringResult env.exec &&& 0xff) <<< 8 = 0; rw [h6]; decide]
  rw [show dostringStderr env.exec = [] by rw [h6]; rfl]

theorem zero_length_iteration_witness :
    recvReadCount envW10.scriptSize envW10.dataEvs = 0 ∧
    receive_script envW10.scriptSize envW10.dataEvs = ScriptRecv.ok [0] ∧
    fuzzIteration envW10 = IterResult.nextIteration (iterTrace envW10) 0 [] :=
  zero_length_iteration envW10 rfl rfl rfl rfl rfl rfl rfl rfl
